import Mathlib

/-!
Shallow embedding of the customer-data ETL pipeline, in its two variants:
`Pandas` (Pandas_Assessment_Solution.py) and `Pyspark`
(Pyspark_Assessment_Solution.py).

A raw input line is represented by its `|`-split field list: the line
`"|D|John|1"` is `["", "D", "John", "1"]`.  A line starts with the literal
text `"|X|"` exactly when its field list has at least three entries and
begins `["", "X"]`, which is how the sources' `startswith` tests are
rendered here.
-/

/-- A calendar date as year, month, day. -/
structure Date where
  year : Nat
  month : Nat
  day : Nat
deriving DecidableEq, Repr

def digitVal (c : Char) : Nat := c.toNat - 48

def digitsToNat (cs : List Char) : Nat := cs.foldl (fun acc c => 10 * acc + digitVal c) 0

def isLeapYear (y : Nat) : Bool := (y % 4 == 0 && y % 100 != 0) || y % 400 == 0

def daysInMonth (y m : Nat) : Nat :=
  if m = 2 then (if isLeapYear y then 29 else 28)
  else if m = 4 ∨ m = 6 ∨ m = 9 ∨ m = 11 then 30
  else 31

def mkValidDate (y m d : Nat) : Option Date :=
  if 1 ≤ m ∧ m ≤ 12 ∧ 1 ≤ d ∧ d ≤ daysInMonth y m then some ⟨y, m, d⟩ else none

/-- Models `pd.to_datetime(col, format='%Y%m%d', errors='coerce')` and Spark
`to_date(col, "yyyyMMdd")`: an eight-digit string is read as year (first four
digits), month (next two), day (last two); any other literal, or an invalid
calendar combination, coerces to null. -/
def parseYYYYMMDD (s : String) : Option Date :=
  let cs := s.toList
  if cs.length = 8 ∧ cs.all Char.isDigit then
    mkValidDate (digitsToNat (cs.take 4)) (digitsToNat ((cs.drop 4).take 2))
      (digitsToNat (cs.drop 6))
  else none

/-- Models `pd.to_datetime(col, format='%d%m%Y', errors='coerce')` and Spark
`to_date(col, "ddMMyyyy")`: day (first two digits), month (next two),
year (last four). -/
def parseDDMMYYYY (s : String) : Option Date :=
  let cs := s.toList
  if cs.length = 8 ∧ cs.all Char.isDigit then
    mkValidDate (digitsToNat (cs.drop 4)) (digitsToNat ((cs.drop 2).take 2))
      (digitsToNat (cs.take 2))
  else none

def leapCount (n : Nat) : Nat := n / 4 - n / 100 + n / 400

def monthOffsets : List Nat := [0, 31, 59, 90, 120, 151, 181, 212, 243, 273, 304, 334]

def dayOfYear (dt : Date) : Nat :=
  monthOffsets.getD (dt.month - 1) 0 + dt.day +
    (if 3 ≤ dt.month ∧ isLeapYear dt.year then 1 else 0)

/-- Days since the proleptic-Gregorian epoch; used to take date differences. -/
def Date.toDays (dt : Date) : Nat := 365 * (dt.year - 1) + leapCount (dt.year - 1) + dayOfYear dt

/-- `(pd.Timestamp.now() - x).days` / Spark `datediff(current_date(), x)`,
with the wall clock injected as `today`. -/
def dateDiffDays (today dt : Date) : Int := (today.toDays : Int) - dt.toDays

/-- Numeric encoding of a date whose order agrees with calendar order on valid
dates; comparing timestamps is modelled by comparing these codes. -/
def Date.code (dt : Date) : Nat := dt.year * 10000 + dt.month * 100 + dt.day

/-- Order on optional consultation dates: a null date sorts below every real
date (`na_position='last'` under pandas' descending sort; Spark's `desc`
null-last ordering). -/
def optDateLe (a b : Option Date) : Prop :=
  match a, b with
  | none, _ => True
  | some _, none => False
  | some x, some y => x.code ≤ y.code

instance (a b : Option Date) : Decidable (optDateLe a b) :=
  match a, b with
  | none, _ => isTrue trivial
  | some _, none => isFalse (fun h => h)
  | some x, some y => inferInstanceAs (Decidable (x.code ≤ y.code))

/-- A data record bound to the expected schema, raw string fields. -/
structure RawRow where
  Customer_Name : Option String
  Customer_Id : Option String
  Open_Date : Option String
  Last_Consulted_Date : Option String
  Vaccination_Id : Option String
  Dr_Name : Option String
  State : Option String
  DOB : Option String
  Country : Option String
deriving DecidableEq, Repr

/-- A row after date conversion: the three date columns hold parsed dates. -/
structure Row where
  Customer_Name : Option String
  Customer_Id : Option String
  Open_Date : Option Date
  Last_Consulted_Date : Option Date
  Vaccination_Id : Option String
  Dr_Name : Option String
  State : Option String
  DOB : Option Date
  Country : Option String
deriving DecidableEq, Repr

/-- A canonical row together with the three derived columns. -/
structure DerivedRow where
  base : Row
  Age : Option Int
  Days_Since_Last_Consulted : Option Int
  Consulted_Recently : String
deriving DecidableEq, Repr

/-- Row comparator of the descending sort on `Last_Consulted_Date`:
`r` precedes `s` when `s`'s date is at most `r`'s, nulls last. -/
def lcdDescRel (r s : Row) : Prop := optDateLe s.Last_Consulted_Date r.Last_Consulted_Date

instance : DecidableRel lcdDescRel := fun r s =>
  inferInstanceAs (Decidable (optDateLe _ _))

theorem optDateLe_total (a b : Option Date) : optDateLe a b ∨ optDateLe b a := by
  match a, b with
  | none, _ => exact Or.inl trivial
  | some _, none => exact Or.inr trivial
  | some x, some y => exact Nat.le_total x.code y.code

theorem optDateLe_trans {a b c : Option Date} (h1 : optDateLe a b) (h2 : optDateLe b c) :
    optDateLe a c := by
  match a, b, c with
  | none, _, _ => exact trivial
  | some _, none, _ => exact absurd h1 (fun h => h)
  | some _, some _, none => exact absurd h2 (fun h => h)
  | some x, some y, some z => exact Nat.le_trans h1 h2

theorem optDateLe_refl (a : Option Date) : optDateLe a a := by
  match a with
  | none => exact trivial
  | some x => exact Nat.le_refl x.code

instance : IsTotal Row lcdDescRel := ⟨fun r s => (optDateLe_total _ _).symm⟩

instance : IsTrans Row lcdDescRel := ⟨fun _ _ _ h1 h2 => optDateLe_trans h2 h1⟩

/-- A raw input line, given by its `|`-split fields. -/
abbrev Line := List String

/-- Rendering of `line.startswith("|" + tag + "|")` on the split fields. -/
def startsWithTag (tag : String) (l : Line) : Bool :=
  3 ≤ l.length && l.take 2 == ["", tag]

/-- Column access by name: position of `name` in the header, then that field
of the row (`None` result models an unresolved-column error). -/
def lookupCol (header : List String) (fields : List (Option String)) (name : String) :
    Option (Option String) :=
  (header.indexOf? name).map (fun i => fields.getD i none)

/-- Labelling a positional record with the header's column names, projected to
the nine columns the pipeline reads; fails when the header lacks one of them. -/
def bindRow (header : List String) (fields : List (Option String)) : Option RawRow := do
  let cn ← lookupCol header fields "Customer_Name"
  let ci ← lookupCol header fields "Customer_Id"
  let od ← lookupCol header fields "Open_Date"
  let lcd ← lookupCol header fields "Last_Consulted_Date"
  let vi ← lookupCol header fields "Vaccination_Id"
  let dn ← lookupCol header fields "Dr_Name"
  let st ← lookupCol header fields "State"
  let dob ← lookupCol header fields "DOB"
  let co ← lookupCol header fields "Country"
  pure ⟨cn, ci, od, lcd, vi, dn, st, dob, co⟩

/-- Length validation of one field: `x if pd.notnull(x) and len(x) <= bound else None`,
equally Spark's `when(length(col) <= bound, col).otherwise(None)`. -/
def nullTooLong (bound : Nat) (x : Option String) : Option String :=
  match x with
  | some s => if s.length ≤ bound then some s else none
  | none => none

/-- `current_year - DOB.year`, null when `DOB` is null. -/
def ageOf (today : Date) (dob : Option Date) : Option Int :=
  dob.map (fun dt => (today.year : Int) - dt.year)

/-- Whole days from the consultation date to today, null when the date is null. -/
def daysSince (today : Date) (lcd : Option Date) : Option Int :=
  lcd.map (dateDiffDays today)

/-- `column == country` as both sources use it when filtering a partition:
comparison against a null key is always false (NaN equality in pandas, null
comparison semantics in Spark), and a null column value matches nothing. -/
def countryMatch (c : Option String) (rc : Option String) : Bool :=
  match c, rc with
  | some s, some t => s == t
  | _, _ => false

/-- First-occurrence distinct values (`Series.unique` / `distinct().collect()`). -/
def uniqueList (seen : List (Option String)) : List (Option String) → List (Option String)
  | [] => []
  | c :: cs => if c ∈ seen then uniqueList seen cs else c :: uniqueList (c :: seen) cs

def emptyToNull (s : String) : Option String := if s = "" then none else some s

namespace Pandas

/-- `extract_header`: the first line starting with `"|H|"` yields its fields
from index 2 on; a file with no such line raises `ValueError`. -/
def extract_header : List Line → Except String (List String)
  | [] => .error "Header row not found."
  | l :: ls => if startsWithTag "H" l then .ok (l.drop 2) else extract_header ls

/-- `pd.read_csv(file, sep="|", header=None)`: the first line fixes the column
count; any later line with more fields is a fatal `ParserError`; shorter lines
are padded with nulls; empty fields read as null (NaN). -/
def read_csv (lines : List Line) : Except String (List (List (Option String))) :=
  match lines with
  | [] => .error "EmptyDataError"
  | first :: _ =>
    let width := first.length
    if lines.all (fun l => l.length ≤ width) then
      .ok (lines.map (fun l => l.map emptyToNull ++ List.replicate (width - l.length) none))
    else .error "ParserError"

/-- `convert_dates` step of `process_and_load_staging`: `pd.to_datetime` with
`errors='coerce'` on the three date columns. -/
def convert_row (r : RawRow) : Row :=
  { Customer_Name := r.Customer_Name
    Customer_Id := r.Customer_Id
    Open_Date := r.Open_Date.bind parseYYYYMMDD
    Last_Consulted_Date := r.Last_Consulted_Date.bind parseYYYYMMDD
    Vaccination_Id := r.Vaccination_Id
    Dr_Name := r.Dr_Name
    State := r.State
    DOB := r.DOB.bind parseDDMMYYYY
    Country := r.Country }

/-- `validate_data`: null out over-length fields, then keep the rows whose
three mandatory fields are non-null (one filter per field, as in the loop). -/
def validate_data (df : List Row) : List Row :=
  let df := df.map (fun r => { r with Customer_Name := nullTooLong 255 r.Customer_Name })
  let df := df.map (fun r => { r with Customer_Id := nullTooLong 18 r.Customer_Id })
  let df := df.map (fun r => { r with Vaccination_Id := nullTooLong 5 r.Vaccination_Id })
  let df := df.map (fun r => { r with Dr_Name := nullTooLong 255 r.Dr_Name })
  let df := df.map (fun r => { r with State := nullTooLong 5 r.State })
  let df := df.map (fun r => { r with Country := nullTooLong 5 r.Country })
  let df := df.filter (fun r => r.Customer_Name.isSome)
  let df := df.filter (fun r => r.Customer_Id.isSome)
  df.filter (fun r => r.Open_Date.isSome)

/-- `process_and_load_staging`: read the file, keep the rows whose index-1
field is `"D"`, drop the two tag fields, label with the header (a width
mismatch with the header raises), convert the date columns, validate. -/
def process_and_load_staging (lines : List Line) (header : List String) :
    Except String (List Row) := do
  let table ← read_csv lines
  let dataRows := (table.filter (fun row => row.getD 1 none == some "D")).map (List.drop 2)
  if dataRows.all (fun row => row.length = header.length) then
    match dataRows.mapM (bindRow header) with
    | some rs => .ok (validate_data (rs.map convert_row))
    | none => .error "KeyError"
  else .error "ValueError: columns length mismatch"

/-- Scan keeping the first row seen for each `Customer_Id`
(`groupby("Customer_Id").head(1)` on an already-sorted frame). -/
def keepFirstByCustomer (seen : List (Option String)) : List Row → List Row
  | [] => []
  | r :: rs =>
    if r.Customer_Id ∈ seen then keepFirstByCustomer seen rs
    else r :: keepFirstByCustomer (r.Customer_Id :: seen) rs

/-- `sort_values("Last_Consulted_Date", ascending=False).groupby("Customer_Id").head(1)`:
the latest record per customer, null dates sorting last. -/
def global_latest_records (staging : List Row) : List Row :=
  keepFirstByCustomer [] (staging.insertionSort lcdDescRel)

/-- `staging_df["Country"].unique()`: first-occurrence order, nulls included. -/
def unique_countries (staging : List Row) : List (Option String) :=
  uniqueList [] (staging.map (·.Country))

/-- `"Yes" if x > 30 else "No" if not pd.isna(x) else "Unknown"`. -/
def consulted_recently (x : Option Int) : String :=
  match x with
  | some d => if 30 < d then "Yes" else "No"
  | none => "Unknown"

/-- The three derived columns added inside the per-country loop. -/
def add_derived (today : Date) (r : Row) : DerivedRow :=
  { base := r
    Age := ageOf today r.DOB
    Days_Since_Last_Consulted := daysSince today r.Last_Consulted_Date
    Consulted_Recently := consulted_recently (daysSince today r.Last_Consulted_Date) }

/-- `create_and_populate_country_tables`: latest record per customer, then one
table per country value of the *staging* set, each holding the latest rows
whose `Country` equals the key, with derived columns attached. -/
def create_and_populate_country_tables (today : Date) (staging : List Row) :
    List (Option String × List DerivedRow) :=
  let latest := global_latest_records staging
  (unique_countries staging).map (fun c =>
    (c, (latest.filter (fun r => countryMatch c r.Country)).map (add_derived today)))

/-- The write loop of `create_and_populate_country_tables` under a write
oracle: tables are written in order; a failing `to_csv` raises, ending the
loop. Returns the keys written and the key whose write raised, if any. -/
def write_tables (ok : Option String → Bool) :
    List (Option String × List DerivedRow) → List (Option String) × Option (Option String)
  | [] => ([], none)
  | (c, _) :: rest =>
    if ok c then
      let out := write_tables ok rest
      (c :: out.1, out.2)
    else ([], some c)

/-- `main`: header extraction, staging (with validation), country tables. -/
def main (today : Date) (lines : List Line) :
    Except String (List (Option String × List DerivedRow)) := do
  let header ← extract_header lines
  let staging ← process_and_load_staging lines header
  .ok (create_and_populate_country_tables today staging)

end Pandas

namespace Pyspark

/-- `extract_header`: `.filter(value.startswith("|H|")).first()`, fields from
index 2 on; raises when absent. -/
def extract_header : List Line → Except String (List String)
  | [] => .error "Header row not found in the data."
  | l :: ls => if startsWithTag "H" l then .ok (l.drop 2) else extract_header ls

/-- `process_data`: the lines starting with `"|D|"`, each bound positionally —
output column `i` is split-field `i + 2` (null when the line is too short;
empty fields stay empty strings). -/
def process_data (lines : List Line) (header : List String) : List (List (Option String)) :=
  (lines.filter (startsWithTag "D")).map (fun l =>
    (List.range header.length).map (fun i => l.get? (i + 2)))

/-- `convert_dates`: `to_date` with the per-column formats; failures are null. -/
def convert_dates (r : RawRow) : Row :=
  { Customer_Name := r.Customer_Name
    Customer_Id := r.Customer_Id
    Open_Date := r.Open_Date.bind parseYYYYMMDD
    Last_Consulted_Date := r.Last_Consulted_Date.bind parseYYYYMMDD
    Vaccination_Id := r.Vaccination_Id
    Dr_Name := r.Dr_Name
    State := r.State
    DOB := r.DOB.bind parseDDMMYYYY
    Country := r.Country }

/-- `validate_data`: six length `when/otherwise` columns, then three
`isNotNull` filters on the mandatory fields. -/
def validate_data (data : List Row) : List Row :=
  let data := data.map (fun r => { r with Customer_Name := nullTooLong 255 r.Customer_Name })
  let data := data.map (fun r => { r with Customer_Id := nullTooLong 18 r.Customer_Id })
  let data := data.map (fun r => { r with Vaccination_Id := nullTooLong 5 r.Vaccination_Id })
  let data := data.map (fun r => { r with Dr_Name := nullTooLong 255 r.Dr_Name })
  let data := data.map (fun r => { r with State := nullTooLong 5 r.State })
  let data := data.map (fun r => { r with Country := nullTooLong 5 r.Country })
  let data := data.filter (fun r => r.Customer_Name.isSome)
  let data := data.filter (fun r => r.Customer_Id.isSome)
  data.filter (fun r => r.Open_Date.isSome)

/-- `get_latest_data`: per-customer window ordered by `Last_Consulted_Date`
descending (nulls last), keeping the `row_number() == 1` row of each group. -/
def get_latest_data (data : List Row) : List Row :=
  (uniqueList [] (data.map (·.Customer_Id))).filterMap (fun c =>
    ((data.filter (fun r => r.Customer_Id == c)).insertionSort lcdDescRel).head?)

/-- `when(datediff <= 30, "Yes").when(datediff > 30, "No").otherwise("Unknown")`. -/
def consulted_recently (x : Option Int) : String :=
  match x with
  | some d => if d ≤ 30 then "Yes" else if 30 < d then "No" else "Unknown"
  | none => "Unknown"

/-- `add_derived_columns`: `Age`, `Days_Since_Last_Consulted`,
`Consulted_Recently` over the latest data. -/
def add_derived_columns (today : Date) (data : List Row) : List DerivedRow :=
  data.map (fun r =>
    { base := r
      Age := ageOf today r.DOB
      Days_Since_Last_Consulted := daysSince today r.Last_Consulted_Date
      Consulted_Recently := consulted_recently (daysSince today r.Last_Consulted_Date) })

/-- The partition contents built by `save_country_data`: one entry per
distinct country of the final data, holding the rows whose `Country` equals
the key. -/
def country_partitions (final : List DerivedRow) : List (Option String × List DerivedRow) :=
  (uniqueList [] (final.map (·.base.Country))).map (fun c =>
    (c, final.filter (fun dr => countryMatch c dr.base.Country)))

/-- The write loop of `save_country_data` under a write oracle: partitions are
written in order; a failing Delta write raises, ending the loop. Returns the
keys written and the key whose write raised, if any. -/
def save_country_writes (ok : Option String → Bool) :
    List (Option String × List DerivedRow) → List (Option String) × Option (Option String)
  | [] => ([], none)
  | (c, _) :: rest =>
    if ok c then
      let out := save_country_writes ok rest
      (c :: out.1, out.2)
    else ([], some c)

/-- `main`: read, extract header, bind, convert, validate, deduplicate,
derive, partition. -/
def main (today : Date) (lines : List Line) :
    Except String (List (Option String × List DerivedRow)) := do
  let header ← extract_header lines
  let table := process_data lines header
  match table.mapM (bindRow header) with
  | none => .error "AnalysisException"
  | some rs =>
    let data := validate_data (rs.map convert_dates)
    let latest := get_latest_data data
    .ok (country_partitions (add_derived_columns today latest))

end Pyspark

/-! ### Helper lemmas -/

theorem mem_uniqueList {c : Option String} {seen : List (Option String)}
    {l : List (Option String)} : c ∈ uniqueList seen l ↔ c ∉ seen ∧ c ∈ l := by
  induction l generalizing seen with
  | nil => simp [uniqueList]
  | cons x xs ih =>
    rw [uniqueList]
    by_cases hx : x ∈ seen
    · rw [if_pos hx, ih]
      constructor
      · rintro ⟨h1, h2⟩; exact ⟨h1, List.mem_cons_of_mem _ h2⟩
      · rintro ⟨h1, h2⟩
        rcases List.mem_cons.1 h2 with rfl | h2
        · exact absurd hx h1
        · exact ⟨h1, h2⟩
    · rw [if_neg hx]
      constructor
      · intro h
        rcases List.mem_cons.1 h with rfl | h
        · exact ⟨hx, List.mem_cons_self _ _⟩
        · rcases ih.1 h with ⟨h1, h2⟩
          exact ⟨fun hs => h1 (List.mem_cons_of_mem _ hs), List.mem_cons_of_mem _ h2⟩
      · rintro ⟨h1, h2⟩
        rcases List.mem_cons.1 h2 with rfl | h2
        · exact List.mem_cons_self _ _
        · by_cases hcx : c = x
          · subst hcx; exact List.mem_cons_self _ _
          · refine List.mem_cons_of_mem _ (ih.2 ⟨?_, h2⟩)
            intro hs
            rcases List.mem_cons.1 hs with h | h
            · exact hcx h
            · exact h1 h

theorem nodup_uniqueList (seen : List (Option String)) (l : List (Option String)) :
    (uniqueList seen l).Nodup := by
  induction l generalizing seen with
  | nil => simp [uniqueList]
  | cons x xs ih =>
    rw [uniqueList]
    by_cases hx : x ∈ seen
    · rw [if_pos hx]; exact ih _
    · rw [if_neg hx]
      refine List.nodup_cons.2 ⟨fun hmem => ?_, ih _⟩
      exact (mem_uniqueList.1 hmem).1 (List.mem_cons_self _ _)

theorem head_filter_max {l : List Row} (hs : l.Pairwise lcdDescRel)
    (p : Row → Bool) {r : Row} (h : (l.filter p).head? = some r) :
    ∀ r' ∈ l, p r' = true → lcdDescRel r r' := by
  induction l with
  | nil => simp at h
  | cons x xs ih =>
    rcases List.pairwise_cons.1 hs with ⟨hx, hxs⟩
    by_cases hpx : p x
    · rw [List.filter_cons_of_pos hpx] at h
      have hxr : x = r := by simpa using h
      subst hxr
      intro r' hr' hpr'
      rcases List.mem_cons.1 hr' with rfl | hr'
      · exact optDateLe_refl _
      · exact hx r' hr'
    · rw [List.filter_cons_of_neg (by simpa using hpx)] at h
      intro r' hr' hpr'
      rcases List.mem_cons.1 hr' with rfl | hr'
      · exact absurd hpr' (by simpa using hpx)
      · exact ih hxs h r' hr' hpr'

theorem orderedInsert_eq_cons_of_forall {a : Row} {M : List Row}
    (h : ∀ x ∈ M, lcdDescRel a x) : M.orderedInsert lcdDescRel a = a :: M := by
  cases M with
  | nil => rfl
  | cons b bs => exact List.orderedInsert_of_le _ _ (h b (List.mem_cons_self _ _))

theorem filter_orderedInsert (p : Row → Bool) (a : Row) :
    ∀ L : List Row, L.Sorted lcdDescRel →
      (L.orderedInsert lcdDescRel a).filter p =
        if p a then (L.filter p).orderedInsert lcdDescRel a else L.filter p := by
  intro L
  induction L with
  | nil =>
    intro _
    by_cases hpa : p a
    · simp [List.orderedInsert, hpa]
    · simp [List.orderedInsert, hpa]
  | cons b bs ih =>
    intro hs
    rcases List.pairwise_cons.1 hs with ⟨hb, hbs⟩
    rw [List.orderedInsert]
    by_cases hab : lcdDescRel a b
    · rw [if_pos hab]
      by_cases hpa : p a
      · rw [List.filter_cons_of_pos hpa, if_pos hpa]
        rw [orderedInsert_eq_cons_of_forall]
        intro x hx
        have hxmem : x ∈ b :: bs := List.mem_of_mem_filter hx
        rcases List.mem_cons.1 hxmem with rfl | hxmem
        · exact hab
        · exact IsTrans.trans a b x hab (hb x hxmem)
      · rw [List.filter_cons_of_neg (by simpa using hpa), if_neg hpa]
    · rw [if_neg hab]
      by_cases hpb : p b
      · rw [List.filter_cons_of_pos hpb, List.filter_cons_of_pos hpb, ih hbs]
        by_cases hpa : p a
        · rw [if_pos hpa, if_pos hpa, List.orderedInsert, if_neg hab]
        · rw [if_neg hpa, if_neg hpa]
      · rw [List.filter_cons_of_neg (by simpa using hpb),
          List.filter_cons_of_neg (by simpa using hpb), ih hbs]

theorem filter_insertionSort (p : Row → Bool) (l : List Row) :
    (l.insertionSort lcdDescRel).filter p = (l.filter p).insertionSort lcdDescRel := by
  induction l with
  | nil => rfl
  | cons a l ih =>
    rw [List.insertionSort,
      filter_orderedInsert p a _ (List.sorted_insertionSort lcdDescRel l)]
    by_cases hpa : p a
    · rw [if_pos hpa, ih, List.filter_cons_of_pos hpa, List.insertionSort]
    · rw [if_neg hpa, ih, List.filter_cons_of_neg (by simpa using hpa)]

namespace Pandas

theorem keepFirst_subset {seen : List (Option String)} {l : List Row} {r : Row}
    (h : r ∈ keepFirstByCustomer seen l) : r ∈ l := by
  induction l generalizing seen with
  | nil => simpa [keepFirstByCustomer] using h
  | cons x xs ih =>
    rw [keepFirstByCustomer] at h
    by_cases hx : x.Customer_Id ∈ seen
    · rw [if_pos hx] at h
      exact List.mem_cons_of_mem _ (ih h)
    · rw [if_neg hx] at h
      rcases List.mem_cons.1 h with rfl | h
      · exact List.mem_cons_self _ _
      · exact List.mem_cons_of_mem _ (ih h)

theorem keepFirst_not_seen {seen : List (Option String)} {l : List Row} {r : Row}
    (h : r ∈ keepFirstByCustomer seen l) : r.Customer_Id ∉ seen := by
  induction l generalizing seen with
  | nil => simp [keepFirstByCustomer] at h
  | cons x xs ih =>
    rw [keepFirstByCustomer] at h
    by_cases hx : x.Customer_Id ∈ seen
    · rw [if_pos hx] at h
      exact ih h
    · rw [if_neg hx] at h
      rcases List.mem_cons.1 h with rfl | h
      · exact hx
      · exact fun hs => ih h (List.mem_cons_of_mem _ hs)

theorem keepFirst_mem_iff {seen : List (Option String)} {l : List Row} {r : Row} :
    r ∈ keepFirstByCustomer seen l ↔
      r.Customer_Id ∉ seen ∧
        (l.filter (fun s => s.Customer_Id == r.Customer_Id)).head? = some r := by
  induction l generalizing seen with
  | nil => simp [keepFirstByCustomer]
  | cons x xs ih =>
    rw [keepFirstByCustomer]
    by_cases heq : x.Customer_Id = r.Customer_Id
    · rw [List.filter_cons_of_pos (by simpa using heq)]
      by_cases hx : x.Customer_Id ∈ seen
      · rw [if_pos hx, ih]
        constructor
        · rintro ⟨h1, _⟩
          exact absurd (heq ▸ hx) h1
        · rintro ⟨h1, h2⟩
          have hxr : x = r := by simpa using h2
          exact absurd (heq ▸ hx) h1
      · rw [if_neg hx]
        constructor
        · intro h
          rcases List.mem_cons.1 h with rfl | h
          · exact ⟨heq ▸ hx, rfl⟩
          · exact absurd (List.mem_cons_self _ _) (heq ▸ keepFirst_not_seen h)
        · rintro ⟨h1, h2⟩
          have hxr : x = r := by simpa using h2
          exact hxr ▸ List.mem_cons_self _ _
    · rw [List.filter_cons_of_neg (by simpa using heq)]
      by_cases hx : x.Customer_Id ∈ seen
      · rw [if_pos hx, ih]
      · rw [if_neg hx]
        constructor
        · intro h
          rcases List.mem_cons.1 h with rfl | h
          · exact absurd rfl heq
          · rcases ih.1 h with ⟨h1, h2⟩
            exact ⟨fun hs => h1 (List.mem_cons_of_mem _ hs), h2⟩
        · rintro ⟨h1, h2⟩
          refine List.mem_cons_of_mem _ (ih.2 ⟨?_, h2⟩)
          intro hs
          rcases List.mem_cons.1 hs with h | h
          · exact heq h.symm
          · exact h1 h

theorem keepFirst_countP (c : Option String) (seen : List (Option String)) (l : List Row) :
    (keepFirstByCustomer seen l).countP (fun r => r.Customer_Id == c) =
      if c ∉ seen ∧ l.any (fun r => r.Customer_Id == c) then 1 else 0 := by
  induction l generalizing seen with
  | nil => simp [keepFirstByCustomer]
  | cons x xs ih =>
    rw [keepFirstByCustomer]
    by_cases hcx : x.Customer_Id = c
    · subst hcx
      by_cases hx : x.Customer_Id ∈ seen
      · rw [if_pos hx, ih]
        simp [hx]
      · rw [if_neg hx, List.countP_cons, ih]
        simp [hx]
    · by_cases hx : x.Customer_Id ∈ seen
      · rw [if_pos hx, ih]
        simp [hcx]
      · rw [if_neg hx, List.countP_cons, ih]
        have hne : (x.Customer_Id == c) = false := by simpa using hcx
        simp only [hne, if_false, List.any_cons, Bool.false_or, add_zero,
          List.mem_cons]
        have hiff : (¬(c = x.Customer_Id ∨ c ∈ seen)) ↔ c ∉ seen := by
          constructor
          · intro h hs; exact h (Or.inr hs)
          · rintro h (h1 | h2)
            · exact hcx h1.symm
            · exact h h2
        simp [hiff]

theorem mem_global_latest_iff {rows : List Row} {r : Row} :
    r ∈ global_latest_records rows ↔
      ((rows.filter (fun s => s.Customer_Id == r.Customer_Id)).insertionSort
        lcdDescRel).head? = some r := by
  rw [global_latest_records, keepFirst_mem_iff, filter_insertionSort]
  simp

end Pandas

namespace Pyspark

theorem mem_get_latest_iff {rows : List Row} {r : Row} :
    r ∈ get_latest_data rows ↔
      ((rows.filter (fun s => s.Customer_Id == r.Customer_Id)).insertionSort
        lcdDescRel).head? = some r := by
  rw [get_latest_data, List.mem_filterMap]
  constructor
  · rintro ⟨c, hc, hhead⟩
    have hrmem : r ∈ (rows.filter (fun s => s.Customer_Id == c)).insertionSort lcdDescRel :=
      List.mem_of_mem_head? hhead
    have hfil : r ∈ rows.filter (fun s => s.Customer_Id == c) :=
      (List.mem_insertionSort _).1 hrmem
    have hcid : r.Customer_Id = c := by simpa using (List.mem_filter.1 hfil).2
    exact hcid ▸ hhead
  · intro hhead
    refine ⟨r.Customer_Id, ?_, hhead⟩
    have hrrows : r ∈ rows :=
      List.mem_of_mem_filter ((List.mem_insertionSort _).1 (List.mem_of_mem_head? hhead))
    rw [mem_uniqueList]
    exact ⟨List.not_mem_nil _, List.mem_map_of_mem _ hrrows⟩

end Pyspark

/-- A row returned as the head of the per-customer descending sort dominates
every row of that customer's group in the `optDateLe` order. -/
theorem latest_head_max {rows : List Row} {r : Row}
    (h : ((rows.filter (fun s => s.Customer_Id == r.Customer_Id)).insertionSort
      lcdDescRel).head? = some r) :
    ∀ r' ∈ rows, r'.Customer_Id = r.Customer_Id →
      optDateLe r'.Last_Consulted_Date r.Last_Consulted_Date := by
  intro r' hr' hcid
  have hmem : r' ∈ (rows.filter (fun s => s.Customer_Id == r.Customer_Id)).insertionSort
      lcdDescRel :=
    (List.mem_insertionSort _).2 (List.mem_filter.2 ⟨hr', by simpa using hcid⟩)
  have hsort := List.sorted_insertionSort lcdDescRel
    (rows.filter (fun s => s.Customer_Id == r.Customer_Id))
  rcases hcons : (rows.filter (fun s => s.Customer_Id == r.Customer_Id)).insertionSort
      lcdDescRel with _ | ⟨x, t⟩
  · rw [hcons] at h; simp at h
  · rw [hcons] at h hmem hsort
    have hxr : x = r := by simpa using h
    subst hxr
    rcases List.mem_cons.1 hmem with rfl | hmem
    · exact optDateLe_refl _
    · exact List.rel_of_sorted_cons hsort r' hmem

theorem head_isSome_iff (rows : List Row) (c : Option String) :
    ((rows.filter (fun s => s.Customer_Id == c)).insertionSort lcdDescRel).head?.isSome =
      true ↔ ∃ r ∈ rows, r.Customer_Id = c := by
  rw [Option.isSome_iff_ne_none, ne_eq, List.head?_eq_none_iff]
  constructor
  · intro h
    rcases hcons : (rows.filter (fun s => s.Customer_Id == c)).insertionSort lcdDescRel
      with _ | ⟨x, t⟩
    · exact absurd hcons h
    · have hx : x ∈ rows.filter (fun s => s.Customer_Id == c) :=
        (List.mem_insertionSort _).1 (hcons ▸ List.mem_cons_self x t)
      rcases List.mem_filter.1 hx with ⟨hx1, hx2⟩
      exact ⟨x, hx1, by simpa using hx2⟩
  · rintro ⟨r, hr, hcid⟩ hnil
    have : r ∈ rows.filter (fun s => s.Customer_Id == c) :=
      List.mem_filter.2 ⟨hr, by simpa using hcid⟩
    have := (List.mem_insertionSort lcdDescRel).2 this
    rw [hnil] at this
    exact List.not_mem_nil r this

/-- A `filterMap` over distinct keys whose function returns rows of that key
contains exactly one row per key with a non-trivial result. -/
theorem countP_filterMap_key (f : Option String → Option Row)
    (hf : ∀ c' r, f c' = some r → r.Customer_Id = c') (c : Option String) :
    ∀ cids : List (Option String), cids.Nodup →
      (cids.filterMap f).countP (fun r => r.Customer_Id == c) =
        if c ∈ cids ∧ (f c).isSome then 1 else 0 := by
  intro cids
  induction cids with
  | nil => simp
  | cons c' cids ih =>
    intro hnd
    rcases List.nodup_cons.1 hnd with ⟨hc', hnd'⟩
    rw [List.filterMap_cons]
    rcases hfc : f c' with _ | r
    · rw [ih hnd']
      by_cases hcc : c = c'
      · subst hcc
        simp [hc', hfc]
      · simp only [List.mem_cons]
        have h1 : (c ∈ cids ∧ (f c).isSome) ↔ ((c = c' ∨ c ∈ cids) ∧ (f c).isSome) := by
          constructor
          · rintro ⟨h, hs⟩; exact ⟨Or.inr h, hs⟩
          · rintro ⟨h | h, hs⟩
            · exact absurd h hcc
            · exact ⟨h, hs⟩
        simp [h1]
    · rw [List.countP_cons, ih hnd']
      have hkey : r.Customer_Id = c' := hf c' r hfc
      by_cases hcc : c = c'
      · subst hcc
        simp [hkey, hc', hfc]
      · have hne : (r.Customer_Id == c) = false := by
          simp [hkey]; exact fun h => hcc h.symm
        simp only [hne, if_false, add_zero, List.mem_cons]
        have h1 : ((c = c' ∨ c ∈ cids) ∧ (f c).isSome) ↔ (c ∈ cids ∧ (f c).isSome) := by
          constructor
          · rintro ⟨h | h, hs⟩
            · exact absurd h hcc
            · exact ⟨h, hs⟩
          · rintro ⟨h, hs⟩; exact ⟨Or.inr h, hs⟩
        simp [h1]

theorem optDateLe_none_right {a : Option Date} (h : optDateLe a none) : a = none := by
  cases a with
  | none => rfl
  | some d => exact absurd h (fun h => h)

/-- C3: for every distinct `Customer_Id` among the validated rows, both
deduplications emit exactly one canonical row for that customer; its
`Last_Consulted_Date` is greater than or equal to that of every other row in
the customer's group (null dates being the minimum), and a null-dated row is
never selected when some row of the group has a non-null date. -/
theorem C3_one_latest_row_per_customer (rows : List Row) (c : Option String)
    (hc : ∃ r ∈ rows, r.Customer_Id = c) :
    ((Pandas.global_latest_records rows).countP (fun r => r.Customer_Id == c) = 1 ∧
      (Pyspark.get_latest_data rows).countP (fun r => r.Customer_Id == c) = 1) ∧
    (∀ r, (r ∈ Pandas.global_latest_records rows ∨ r ∈ Pyspark.get_latest_data rows) →
      ∀ r' ∈ rows, r'.Customer_Id = r.Customer_Id →
        optDateLe r'.Last_Consulted_Date r.Last_Consulted_Date ∧
        (r.Last_Consulted_Date = none → r'.Last_Consulted_Date = none)) := by
  constructor
  · constructor
    · rw [Pandas.global_latest_records, Pandas.keepFirst_countP]
      rcases hc with ⟨r, hr, hcid⟩
      have hany : ((rows.insertionSort lcdDescRel).any (fun s => s.Customer_Id == c)) = true := by
        rw [List.any_eq_true]
        exact ⟨r, (List.mem_insertionSort _).2 hr, by simpa using hcid⟩
      simp [hany]
    · have hf : ∀ (c' : Option String) (r : Row),
          (((rows.filter (fun s => s.Customer_Id == c')).insertionSort
            lcdDescRel).head?) = some r → r.Customer_Id = c' := by
        intro c' r h
        have h1 := (List.mem_insertionSort _).1 (List.mem_of_mem_head? h)
        simpa using (List.mem_filter.1 h1).2
      rw [Pyspark.get_latest_data,
        countP_filterMap_key _ hf c _ (nodup_uniqueList _ _)]
      rcases hc with ⟨r, hr, hcid⟩
      have h1 : c ∈ uniqueList [] (rows.map (·.Customer_Id)) :=
        mem_uniqueList.2 ⟨List.not_mem_nil _, hcid ▸ List.mem_map_of_mem _ hr⟩
      have h2 : (((rows.filter (fun s => s.Customer_Id == c)).insertionSort
          lcdDescRel).head?).isSome = true :=
        (head_isSome_iff rows c).2 ⟨r, hr, hcid⟩
      simp [h1, h2]
  · intro r hmem r' hr' hcid
    have hhead : ((rows.filter (fun s => s.Customer_Id == r.Customer_Id)).insertionSort
        lcdDescRel).head? = some r := by
      rcases hmem with h | h
      · exact Pandas.mem_global_latest_iff.1 h
      · exact Pyspark.mem_get_latest_iff.1 h
    have hmax := latest_head_max hhead r' hr' hcid
    refine ⟨hmax, fun hnone => ?_⟩
    rw [hnone] at hmax
    exact optDateLe_none_right hmax

/-- Witness for C3 at a concrete two-row group for customer `"42"`. -/
theorem C3_one_latest_row_per_customer_witness :
    ((Pandas.global_latest_records
        [⟨some "A", some "42", some ⟨2020,1,1⟩, some ⟨2023,1,1⟩, none, none, none, none, some "US"⟩,
         ⟨some "A", some "42", some ⟨2020,1,1⟩, some ⟨2023,6,1⟩, none, none, none, none, some "US"⟩]).countP
        (fun r => r.Customer_Id == some "42") = 1 ∧
      (Pyspark.get_latest_data
        [⟨some "A", some "42", some ⟨2020,1,1⟩, some ⟨2023,1,1⟩, none, none, none, none, some "US"⟩,
         ⟨some "A", some "42", some ⟨2020,1,1⟩, some ⟨2023,6,1⟩, none, none, none, none, some "US"⟩]).countP
        (fun r => r.Customer_Id == some "42") = 1) ∧
    (∀ r, (r ∈ Pandas.global_latest_records
        [⟨some "A", some "42", some ⟨2020,1,1⟩, some ⟨2023,1,1⟩, none, none, none, none, some "US"⟩,
         ⟨some "A", some "42", some ⟨2020,1,1⟩, some ⟨2023,6,1⟩, none, none, none, none, some "US"⟩] ∨
        r ∈ Pyspark.get_latest_data
        [⟨some "A", some "42", some ⟨2020,1,1⟩, some ⟨2023,1,1⟩, none, none, none, none, some "US"⟩,
         ⟨some "A", some "42", some ⟨2020,1,1⟩, some ⟨2023,6,1⟩, none, none, none, none, some "US"⟩]) →
      ∀ r' ∈ ([⟨some "A", some "42", some ⟨2020,1,1⟩, some ⟨2023,1,1⟩, none, none, none, none, some "US"⟩,
         ⟨some "A", some "42", some ⟨2020,1,1⟩, some ⟨2023,6,1⟩, none, none, none, none, some "US"⟩] : List Row),
        r'.Customer_Id = r.Customer_Id →
          optDateLe r'.Last_Consulted_Date r.Last_Consulted_Date ∧
          (r.Last_Consulted_Date = none → r'.Last_Consulted_Date = none)) :=
  C3_one_latest_row_per_customer
    [⟨some "A", some "42", some ⟨2020,1,1⟩, some ⟨2023,1,1⟩, none, none, none, none, some "US"⟩,
     ⟨some "A", some "42", some ⟨2020,1,1⟩, some ⟨2023,6,1⟩, none, none, none, none, some "US"⟩]
    (some "42") (by decide)

theorem Pandas.global_latest_subset {rows : List Row} {r : Row}
    (h : r ∈ Pandas.global_latest_records rows) : r ∈ rows :=
  (List.mem_insertionSort _).1 (Pandas.keepFirst_subset h)

theorem Pyspark.get_latest_subset {rows : List Row} {r : Row}
    (h : r ∈ Pyspark.get_latest_data rows) : r ∈ rows :=
  List.mem_of_mem_filter ((List.mem_insertionSort _).1
    (List.mem_of_mem_head? (Pyspark.mem_get_latest_iff.1 h)))

theorem Pandas.mem_validate_mandatory_pandas {df : List Row} {r : Row}
    (h : r ∈ Pandas.validate_data df) :
    r.Customer_Name ≠ none ∧ r.Customer_Id ≠ none ∧ r.Open_Date ≠ none := by
  rw [Pandas.validate_data] at h
  simp only [List.mem_filter] at h
  refine ⟨?_, ?_, ?_⟩
  · simpa [Option.isSome_iff_ne_none] using h.1.1.2
  · simpa [Option.isSome_iff_ne_none] using h.1.2
  · simpa [Option.isSome_iff_ne_none] using h.2

theorem Pyspark.mem_validate_mandatory_spark {df : List Row} {r : Row}
    (h : r ∈ Pyspark.validate_data df) :
    r.Customer_Name ≠ none ∧ r.Customer_Id ≠ none ∧ r.Open_Date ≠ none := by
  rw [Pyspark.validate_data] at h
  simp only [List.mem_filter] at h
  refine ⟨?_, ?_, ?_⟩
  · simpa [Option.isSome_iff_ne_none] using h.1.1.2
  · simpa [Option.isSome_iff_ne_none] using h.1.2
  · simpa [Option.isSome_iff_ne_none] using h.2

/-- C4: every row surviving validation has non-null `Customer_Name`,
`Customer_Id` and `Open_Date` in both implementations; a row in which any of
the three is null (for instance an `Open_Date` nulled by date-parse failure)
is absent from the validated set, and rows of every output partition built
over validated rows satisfy the same invariant. -/
theorem C4_mandatory_fields_never_null (df : List Row) (r : Row) :
    ((r ∈ Pandas.validate_data df ∨ r ∈ Pyspark.validate_data df) →
      r.Customer_Name ≠ none ∧ r.Customer_Id ≠ none ∧ r.Open_Date ≠ none) ∧
    (¬(r.Customer_Name ≠ none ∧ r.Customer_Id ≠ none ∧ r.Open_Date ≠ none) →
      r ∉ Pandas.validate_data df ∧ r ∉ Pyspark.validate_data df) ∧
    (∀ (today : Date) (e : Option String × List DerivedRow) (dr : DerivedRow),
      e ∈ Pandas.create_and_populate_country_tables today (Pandas.validate_data df) →
        dr ∈ e.2 →
          dr.base.Customer_Name ≠ none ∧ dr.base.Customer_Id ≠ none ∧
            dr.base.Open_Date ≠ none) ∧
    (∀ (today : Date) (e : Option String × List DerivedRow) (dr : DerivedRow),
      e ∈ Pyspark.country_partitions (Pyspark.add_derived_columns today
          (Pyspark.get_latest_data (Pyspark.validate_data df))) →
        dr ∈ e.2 →
          dr.base.Customer_Name ≠ none ∧ dr.base.Customer_Id ≠ none ∧
            dr.base.Open_Date ≠ none) := by
  refine ⟨?_, ?_, ?_, ?_⟩
  · rintro (h | h)
    · exact Pandas.mem_validate_mandatory_pandas h
    · exact Pyspark.mem_validate_mandatory_spark h
  · intro hbad
    constructor
    · intro h; exact hbad (Pandas.mem_validate_mandatory_pandas h)
    · intro h; exact hbad (Pyspark.mem_validate_mandatory_spark h)
  · intro today e dr he hdr
    rw [Pandas.create_and_populate_country_tables] at he
    rcases List.mem_map.1 he with ⟨c, _, rfl⟩
    rcases List.mem_map.1 hdr with ⟨r0, hr0, rfl⟩
    exact Pandas.mem_validate_mandatory_pandas
      (Pandas.global_latest_subset (List.mem_of_mem_filter hr0))
  · intro today e dr he hdr
    rw [Pyspark.country_partitions] at he
    rcases List.mem_map.1 he with ⟨c, _, rfl⟩
    have hdr2 : dr ∈ Pyspark.add_derived_columns today
        (Pyspark.get_latest_data (Pyspark.validate_data df)) :=
      List.mem_of_mem_filter hdr
    rw [Pyspark.add_derived_columns] at hdr2
    rcases List.mem_map.1 hdr2 with ⟨r0, hr0, rfl⟩
    exact Pyspark.mem_validate_mandatory_spark (Pyspark.get_latest_subset hr0)

/-- C5: `Open_Date` and `Last_Consulted_Date` parse under the concatenated
`YYYYMMDD` encoding and `DOB` under `DDMMYYYY` in both implementations; a
literal that does not parse under its encoding becomes null, and conversion
never drops a row (row count is preserved) nor alters the non-date fields. -/
theorem C5_date_parsing_encodings (rs : List RawRow) (r : RawRow) :
    ((rs.map Pandas.convert_row).length = rs.length ∧
      (rs.map Pyspark.convert_dates).length = rs.length) ∧
    Pandas.convert_row r = Pyspark.convert_dates r ∧
    ((Pandas.convert_row r).Open_Date = r.Open_Date.bind parseYYYYMMDD ∧
      (Pandas.convert_row r).Last_Consulted_Date =
        r.Last_Consulted_Date.bind parseYYYYMMDD ∧
      (Pandas.convert_row r).DOB = r.DOB.bind parseDDMMYYYY) ∧
    ((Pandas.convert_row r).Customer_Name = r.Customer_Name ∧
      (Pandas.convert_row r).Customer_Id = r.Customer_Id ∧
      (Pandas.convert_row r).Vaccination_Id = r.Vaccination_Id ∧
      (Pandas.convert_row r).Dr_Name = r.Dr_Name ∧
      (Pandas.convert_row r).State = r.State ∧
      (Pandas.convert_row r).Country = r.Country) ∧
    (parseYYYYMMDD "20230115" = some ⟨2023, 1, 15⟩ ∧
      parseDDMMYYYY "15012023" = some ⟨2023, 1, 15⟩ ∧
      parseYYYYMMDD "15012023" = none ∧
      parseDDMMYYYY "20230115" = none ∧
      parseYYYYMMDD "2023-01-15" = none ∧
      parseYYYYMMDD "20230230" = none ∧
      parseDDMMYYYY "garbage!" = none) := by
  refine ⟨⟨by simp, by simp⟩, rfl, ⟨rfl, rfl, rfl⟩, ⟨rfl, rfl, rfl, rfl, rfl, rfl⟩,
    by decide⟩

theorem daysSince_eq_none_iff (today : Date) (lcd : Option Date) :
    daysSince today lcd = none ↔ lcd = none := by
  cases lcd <;> simp [daysSince]

theorem Pandas.consulted_recently_pandas_spec (x : Option Int) :
    (x = none → Pandas.consulted_recently x = "Unknown") ∧
    ∀ d : Int, x = some d →
      (30 < d → Pandas.consulted_recently x = "Yes") ∧
      (d ≤ 30 → Pandas.consulted_recently x = "No") := by
  cases x with
  | none => exact ⟨fun _ => rfl, fun d hd => by simp at hd⟩
  | some v =>
    refine ⟨fun h => by simp at h, fun d hd => ?_⟩
    obtain rfl : v = d := by simpa using hd
    constructor
    · intro h
      simp only [Pandas.consulted_recently]
      rw [if_pos h]
    · intro h
      simp only [Pandas.consulted_recently]
      rw [if_neg (by omega)]

theorem Pyspark.consulted_recently_spark_spec (x : Option Int) :
    (x = none → Pyspark.consulted_recently x = "Unknown") ∧
    ∀ d : Int, x = some d →
      (d ≤ 30 → Pyspark.consulted_recently x = "Yes") ∧
      (30 < d → Pyspark.consulted_recently x = "No") := by
  cases x with
  | none => exact ⟨fun _ => rfl, fun d hd => by simp at hd⟩
  | some v =>
    refine ⟨fun h => by simp at h, fun d hd => ?_⟩
    obtain rfl : v = d := by simpa using hd
    constructor
    · intro h
      simp only [Pyspark.consulted_recently]
      rw [if_pos h]
    · intro h
      simp only [Pyspark.consulted_recently]
      rw [if_neg (by omega), if_pos h]

/-- C1 (amended): in the pandas implementation `Consulted_Recently` follows
the stated mapping — `"Yes"` for a non-null day count strictly above 30,
`"No"` for a non-null count of at most 30, `"Unknown"` for a null
`Last_Consulted_Date` — while the PySpark implementation swaps the first two
cases: at most 30 days yields `"Yes"` and more than 30 days yields `"No"`,
with `"Unknown"` again reserved for a null date. -/
theorem C1_consulted_recently_amended (today : Date) (r : Row) (rows : List Row) :
    (((Pandas.add_derived today r).Days_Since_Last_Consulted = none ↔
        r.Last_Consulted_Date = none) ∧
      (∀ d : Int, (Pandas.add_derived today r).Days_Since_Last_Consulted = some d →
        (30 < d → (Pandas.add_derived today r).Consulted_Recently = "Yes") ∧
        (d ≤ 30 → (Pandas.add_derived today r).Consulted_Recently = "No")) ∧
      (r.Last_Consulted_Date = none →
        (Pandas.add_derived today r).Consulted_Recently = "Unknown")) ∧
    (∀ dr ∈ Pyspark.add_derived_columns today rows,
      (dr.Days_Since_Last_Consulted = none ↔ dr.base.Last_Consulted_Date = none) ∧
      (∀ d : Int, dr.Days_Since_Last_Consulted = some d →
        (d ≤ 30 → dr.Consulted_Recently = "Yes") ∧
        (30 < d → dr.Consulted_Recently = "No")) ∧
      (dr.base.Last_Consulted_Date = none → dr.Consulted_Recently = "Unknown")) := by
  constructor
  · refine ⟨daysSince_eq_none_iff today r.Last_Consulted_Date, ?_, ?_⟩
    · intro d hd
      exact (Pandas.consulted_recently_pandas_spec
        (daysSince today r.Last_Consulted_Date)).2 d hd
    · intro hnone
      exact (Pandas.consulted_recently_pandas_spec
        (daysSince today r.Last_Consulted_Date)).1
        ((daysSince_eq_none_iff today r.Last_Consulted_Date).2 hnone)
  · intro dr hdr
    rw [Pyspark.add_derived_columns] at hdr
    rcases List.mem_map.1 hdr with ⟨r0, _, rfl⟩
    refine ⟨daysSince_eq_none_iff today r0.Last_Consulted_Date, ?_, ?_⟩
    · intro d hd
      exact (Pyspark.consulted_recently_spark_spec
        (daysSince today r0.Last_Consulted_Date)).2 d hd
    · intro hnone
      exact (Pyspark.consulted_recently_spark_spec
        (daysSince today r0.Last_Consulted_Date)).1
        ((daysSince_eq_none_iff today r0.Last_Consulted_Date).2 hnone)

/-- Counterexample for C1 as stated: a canonical row consulted 31 days ago
(strictly more than 30) gets `Consulted_Recently = "No"`, not `"Yes"`, from
the PySpark derivation. -/
theorem C1_counterexample :
    ¬ (∀ dr ∈ Pyspark.add_derived_columns ⟨2023, 2, 15⟩
          [⟨some "John", some "1", some ⟨2023,1,1⟩, some ⟨2023,1,15⟩,
            none, none, none, none, some "US"⟩],
        ∀ d : Int, dr.Days_Since_Last_Consulted = some d → 30 < d →
          dr.Consulted_Recently = "Yes") := by
  intro h
  exact absurd
    (h ⟨⟨some "John", some "1", some ⟨2023,1,1⟩, some ⟨2023,1,15⟩,
          none, none, none, none, some "US"⟩, none, some 31, "No"⟩
      (by decide) 31 (by decide) (by decide))
    (by decide)

/-- C2 (amended): the two implementations agree on field validation, date
conversion, header extraction (up to the error message) and on which rows the
per-customer deduplication can return; they do not produce the same outputs —
the `Consulted_Recently` column is swapped between them (PySpark answers
`"Yes"` exactly where pandas answers `"No"` on non-null day counts), and the
partition key sets, data-line classification and empty-field binding differ. -/
theorem C2_pipelines_stage_agreement (df : List Row) (r0 : RawRow) (x : Option Int)
    (rows : List Row) (r : Row) (lines : List Line) :
    Pandas.validate_data df = Pyspark.validate_data df ∧
    Pandas.convert_row r0 = Pyspark.convert_dates r0 ∧
    (Pandas.extract_header lines).toOption = (Pyspark.extract_header lines).toOption ∧
    (r ∈ Pandas.global_latest_records rows ↔ r ∈ Pyspark.get_latest_data rows) ∧
    Pyspark.consulted_recently x =
      (if Pandas.consulted_recently x = "Yes" then "No"
       else if Pandas.consulted_recently x = "No" then "Yes"
       else Pandas.consulted_recently x) := by
  refine ⟨rfl, rfl, ?_, ?_, ?_⟩
  · induction lines with
    | nil => rfl
    | cons l ls ih =>
      rw [Pandas.extract_header, Pyspark.extract_header]
      by_cases h : startsWithTag "H" l
      · rw [if_pos h, if_pos h]
      · rw [if_neg h, if_neg h]
        exact ih
  · rw [Pandas.mem_global_latest_iff, Pyspark.mem_get_latest_iff]
  · cases x with
    | none => decide
    | some v =>
      simp only [Pandas.consulted_recently, Pyspark.consulted_recently]
      by_cases h : v ≤ 30
      · have h30 : ¬ (30 : Int) < v := by omega
        rw [if_pos h, if_neg h30]
        decide
      · have h30 : (30 : Int) < v := by omega
        rw [if_neg h, if_pos h30, if_pos h30]
        decide

/-- Counterexample for C2 as stated: on one concrete input file the two
implementations produce different outputs (the canonical row's
`Consulted_Recently` is `"Yes"` under pandas and `"No"` under PySpark). -/
theorem C2_counterexample :
    (Pandas.main ⟨2023, 2, 15⟩
        [["", "H", "Customer_Name", "Customer_Id", "Open_Date", "Last_Consulted_Date",
          "Vaccination_Id", "Dr_Name", "State", "DOB", "Country"],
         ["", "D", "John", "1", "20230101", "20230115", "V1", "Dr", "ST", "01011990",
          "US"]]).toOption ≠
      (Pyspark.main ⟨2023, 2, 15⟩
        [["", "H", "Customer_Name", "Customer_Id", "Open_Date", "Last_Consulted_Date",
          "Vaccination_Id", "Dr_Name", "State", "DOB", "Country"],
         ["", "D", "John", "1", "20230101", "20230115", "V1", "Dr", "ST", "01011990",
          "US"]]).toOption := by
  decide

/-- C6 (amended): a data line whose field count mismatches the header is not
skipped — a short line is bound with nulls in the missing positions (PySpark
binds every `|D|` line whatever its field count, and a pandas read that
succeeds keeps every line), while in the pandas implementation a line with
more fields than the first line's field count is a fatal `ParserError`. -/
theorem C6_mismatch_not_skipped_amended (first : Line) (rest : List Line) (l : Line)
    (lines : List Line) (header : List String) (t : List (List (Option String))) :
    (l ∈ first :: rest → first.length < l.length →
      Pandas.read_csv (first :: rest) = .error "ParserError") ∧
    ((Pyspark.process_data lines header).length =
      (lines.filter (startsWithTag "D")).length) ∧
    (Pandas.read_csv lines = .ok t → t.length = lines.length) := by
  refine ⟨?_, by simp [Pyspark.process_data], ?_⟩
  · intro hl hlen
    simp only [Pandas.read_csv]
    rw [if_neg]
    intro hall
    have := List.all_eq_true.1 hall l hl
    simp at this
    omega
  · intro h
    cases lines with
    | nil => simp [Pandas.read_csv] at h
    | cons first' rest' =>
      simp only [Pandas.read_csv] at h
      by_cases hall : (first' :: rest').all (fun l' => l'.length ≤ first'.length)
      · rw [if_pos hall] at h
        have : (first' :: rest').map (fun l' =>
            l'.map emptyToNull ++ List.replicate (first'.length - l'.length) none) = t := by
          simpa using h
        rw [← this]
        simp
      · rw [if_neg hall] at h
        simp at h

/-- Counterexample for C6 as stated: a data line with one extra field makes
the whole pandas run abort with no output at all (nothing is skipped and
processing does not continue), and a data line with one missing field is
bound (with a null `Country`) rather than skipped in both implementations. -/
theorem C6_counterexample :
    (Pandas.main ⟨2023, 2, 15⟩
        [["", "H", "Customer_Name", "Customer_Id", "Open_Date", "Last_Consulted_Date",
          "Vaccination_Id", "Dr_Name", "State", "DOB", "Country"],
         ["", "D", "John", "1", "20230101", "20230115", "V1", "Dr", "ST", "01011990",
          "US", "EXTRA"]]).toOption = none ∧
    (Pandas.process_and_load_staging
        [["", "H", "Customer_Name", "Customer_Id", "Open_Date", "Last_Consulted_Date",
          "Vaccination_Id", "Dr_Name", "State", "DOB", "Country"],
         ["", "D", "John", "1", "20230101", "20230115", "V1", "Dr", "ST", "01011990"]]
        ["Customer_Name", "Customer_Id", "Open_Date", "Last_Consulted_Date",
          "Vaccination_Id", "Dr_Name", "State", "DOB", "Country"]).toOption =
      some [⟨some "John", some "1", some ⟨2023,1,1⟩, some ⟨2023,1,15⟩,
        some "V1", some "Dr", some "ST", some ⟨1990,1,1⟩, none⟩] ∧
    (Pyspark.process_data
        [["", "H", "Customer_Name", "Customer_Id", "Open_Date", "Last_Consulted_Date",
          "Vaccination_Id", "Dr_Name", "State", "DOB", "Country"],
         ["", "D", "John", "1", "20230101", "20230115", "V1", "Dr", "ST", "01011990"]]
        ["Customer_Name", "Customer_Id", "Open_Date", "Last_Consulted_Date",
          "Vaccination_Id", "Dr_Name", "State", "DOB", "Country"]).length = 1 := by
  decide

/-- C7 (amended): header detection requires the literal prefix `"|H|"` — an
empty token before the first delimiter — in both implementations, and PySpark
likewise treats as data exactly the lines starting with `"|D|"`, while the
pandas implementation selects data rows by the index-1 field being `"D"`;
every other line is ignored without error. -/
theorem C7_classification_amended (l : Line) (ls : List Line) (header : List String)
    (table : List (List (Option String))) (row : List (Option String)) :
    (startsWithTag "H" l = true →
      Pandas.extract_header (l :: ls) = .ok (l.drop 2) ∧
      Pyspark.extract_header (l :: ls) = .ok (l.drop 2)) ∧
    (startsWithTag "H" l = false →
      Pandas.extract_header (l :: ls) = Pandas.extract_header ls ∧
      Pyspark.extract_header (l :: ls) = Pyspark.extract_header ls) ∧
    (startsWithTag "D" l = false →
      Pyspark.process_data (l :: ls) header = Pyspark.process_data ls header) ∧
    (startsWithTag "D" l = true →
      Pyspark.process_data (l :: ls) header =
        ((List.range header.length).map (fun i => l.get? (i + 2))) ::
          Pyspark.process_data ls header) ∧
    (row ∈ table →
      (row.getD 1 none = some "D" ↔
        row ∈ table.filter (fun row' => row'.getD 1 none == some "D"))) := by
  refine ⟨?_, ?_, ?_, ?_, ?_⟩
  · intro h
    rw [Pandas.extract_header, Pyspark.extract_header, if_pos h, if_pos h]
    exact ⟨rfl, rfl⟩
  · intro h
    rw [Pandas.extract_header, Pyspark.extract_header, if_neg (by simp [h]),
      if_neg (by simp [h])]
    exact ⟨rfl, rfl⟩
  · intro h
    rw [Pyspark.process_data, Pyspark.process_data,
      List.filter_cons_of_neg (by simp [h])]
  · intro h
    rw [Pyspark.process_data, Pyspark.process_data, List.filter_cons_of_pos h,
      List.map_cons]
  · intro hrow
    constructor
    · intro h
      exact List.mem_filter.2 ⟨hrow, by simpa [List.getD] using h⟩
    · intro h
      simpa using (List.mem_filter.1 h).2

/-- Counterexample for C7 as stated: the line `"X|H|A|B"` has the token `"H"`
at index 1 yet neither implementation treats it as a header line. -/
theorem C7_counterexample :
    (["X", "H", "A", "B"] : Line).getD 1 "" = "H" ∧
    (Pandas.extract_header [["X", "H", "A", "B"]]).toOption = none ∧
    (Pyspark.extract_header [["X", "H", "A", "B"]]).toOption = none := by
  decide

theorem countP_beq_eq_one_of_nodup {l : List (Option String)} {a : Option String}
    (hnd : l.Nodup) (ha : a ∈ l) : l.countP (fun x => x == a) = 1 := by
  induction l with
  | nil => simp at ha
  | cons x xs ih =>
    rcases List.nodup_cons.1 hnd with ⟨hx, hnd'⟩
    rw [List.countP_cons]
    rcases List.mem_cons.1 ha with rfl | ha
    · have h0 : xs.countP (fun b => b == a) = 0 :=
        List.countP_eq_zero.2 (fun b hb => by
          simp only [beq_iff_eq]
          rintro rfl
          exact hx hb)
      simp [h0]
    · have hxa : (x == a) = false := by
        simp only [beq_eq_false_iff_ne, ne_eq]
        rintro rfl
        exact hx ha
      simp [hxa, ih hnd' ha]

theorem Pandas.add_derived_inj {today : Date} {r r' : Row}
    (h : Pandas.add_derived today r = Pandas.add_derived today r') : r = r' :=
  congrArg DerivedRow.base h

theorem countryMatch_none_right (c : Option String) : countryMatch c none = false := by
  cases c <;> rfl

theorem countryMatch_none_left (rc : Option String) : countryMatch none rc = false := by
  cases rc <;> rfl

theorem countryMatch_some_iff (c : Option String) (s : String) :
    countryMatch c (some s) = true ↔ c = some s := by
  cases c with
  | none => simp [countryMatch]
  | some t => simp [countryMatch]

/-- C8 (amended): the writers group by `Country` as an opaque key, a null
country forming its own (empty) partition; a canonical row with non-null
`Country` is written into exactly one artifact, but a canonical row with a
null `Country` matches no partition filter and is omitted from every output
artifact even though the `Table_<null>` artifact itself is created. -/
theorem C8_partitioning_amended (today : Date) (staging : List Row) (r : Row)
    (final : List DerivedRow) (dr : DerivedRow) :
    (r ∈ Pandas.global_latest_records staging →
      (∀ s, r.Country = some s →
        (Pandas.create_and_populate_country_tables today staging).countP
          (fun e => decide (Pandas.add_derived today r ∈ e.2)) = 1) ∧
      (r.Country = none →
        ∀ e ∈ Pandas.create_and_populate_country_tables today staging,
          Pandas.add_derived today r ∉ e.2)) ∧
    ((none : Option String) ∈ staging.map (·.Country) →
      ((none : Option String), ([] : List DerivedRow)) ∈
        Pandas.create_and_populate_country_tables today staging) ∧
    (dr ∈ final →
      (∀ s, dr.base.Country = some s →
        (Pyspark.country_partitions final).countP (fun e => decide (dr ∈ e.2)) = 1) ∧
      (dr.base.Country = none →
        ∀ e ∈ Pyspark.country_partitions final, dr ∉ e.2)) ∧
    ((none : Option String) ∈ final.map (·.base.Country) →
      ((none : Option String), ([] : List DerivedRow)) ∈
        Pyspark.country_partitions final) := by
  refine ⟨?_, ?_, ?_, ?_⟩
  · intro hr
    constructor
    · intro s hs
      have hmem : (some s : Option String) ∈ Pandas.unique_countries staging := by
        rw [Pandas.unique_countries]
        exact mem_uniqueList.2 ⟨List.not_mem_nil _,
          hs ▸ List.mem_map_of_mem _ (Pandas.global_latest_subset hr)⟩
      simp only [Pandas.create_and_populate_country_tables]
      rw [List.countP_map]
      have h1 : ∀ c ∈ Pandas.unique_countries staging,
          (decide (Pandas.add_derived today r ∈
            ((Pandas.global_latest_records staging).filter
              (fun r' => countryMatch c r'.Country)).map (Pandas.add_derived today)) =
            true) ↔ ((c == some s) = true) := by
        intro c hc
        simp only [decide_eq_true_eq, beq_iff_eq]
        constructor
        · intro hin
          rcases List.mem_map.1 hin with ⟨a, ha, hda⟩
          have haq : a = r := Pandas.add_derived_inj hda
          subst haq
          have hcm := (List.mem_filter.1 ha).2
          rw [hs] at hcm
          exact (countryMatch_some_iff c s).1 hcm
        · rintro rfl
          refine List.mem_map.2 ⟨r, List.mem_filter.2 ⟨hr, ?_⟩, rfl⟩
          rw [hs]
          exact (countryMatch_some_iff (some s) s).2 rfl
      exact (List.countP_congr h1).trans
        (countP_beq_eq_one_of_nodup
          (by rw [Pandas.unique_countries]; exact nodup_uniqueList _ _) hmem)
    · intro hnone e he hmem
      simp only [Pandas.create_and_populate_country_tables] at he
      rcases List.mem_map.1 he with ⟨c, hc, rfl⟩
      rcases List.mem_map.1 hmem with ⟨a, ha, hda⟩
      have haq : a = r := Pandas.add_derived_inj hda
      subst haq
      have hcm := (List.mem_filter.1 ha).2
      rw [hnone, countryMatch_none_right] at hcm
      simp at hcm
  · intro hnone
    simp only [Pandas.create_and_populate_country_tables]
    refine List.mem_map.2 ⟨none, ?_, ?_⟩
    · rw [Pandas.unique_countries]
      exact mem_uniqueList.2 ⟨List.not_mem_nil _, hnone⟩
    · have hfil : (Pandas.global_latest_records staging).filter
          (fun r' => countryMatch none r'.Country) = [] :=
        List.filter_eq_nil_iff.2 (fun a _ => by simp [countryMatch_none_left])
      rw [hfil]
      rfl
  · intro hdr
    constructor
    · intro s hs
      simp only [Pyspark.country_partitions]
      rw [List.countP_map]
      have h1 : ∀ c ∈ uniqueList [] (final.map (·.base.Country)),
          (decide (dr ∈ final.filter
            (fun dr' => countryMatch c dr'.base.Country)) = true) ↔
            ((c == some s) = true) := by
        intro c hc
        simp only [decide_eq_true_eq, beq_iff_eq, List.mem_filter]
        constructor
        · rintro ⟨_, hcm⟩
          rw [hs] at hcm
          exact (countryMatch_some_iff c s).1 hcm
        · rintro rfl
          exact ⟨hdr, by rw [hs]; exact (countryMatch_some_iff (some s) s).2 rfl⟩
      exact (List.countP_congr h1).trans
        (countP_beq_eq_one_of_nodup (nodup_uniqueList _ _)
          (mem_uniqueList.2 ⟨List.not_mem_nil _,
            by rw [← hs]; exact List.mem_map_of_mem _ hdr⟩))
    · intro hnone e he hmem
      simp only [Pyspark.country_partitions] at he
      rcases List.mem_map.1 he with ⟨c, hc, rfl⟩
      have hcm := (List.mem_filter.1 hmem).2
      rw [hnone, countryMatch_none_right] at hcm
      simp at hcm
  · intro hnone
    simp only [Pyspark.country_partitions]
    refine List.mem_map.2 ⟨none, mem_uniqueList.2 ⟨List.not_mem_nil _, hnone⟩, ?_⟩
    have hfil : final.filter (fun dr' => countryMatch none dr'.base.Country) = [] :=
      List.filter_eq_nil_iff.2 (fun a _ => by simp [countryMatch_none_left])
    rw [hfil]

/-- Counterexample for C8 as stated: a canonical row whose `Country` is null
produces a `Table_<null>` partition that is empty, and the row itself appears
in no output artifact at all. -/
theorem C8_counterexample :
    Pandas.create_and_populate_country_tables ⟨2023, 2, 15⟩
        [⟨some "A", some "1", some ⟨2020,1,1⟩, some ⟨2023,1,1⟩,
          none, none, none, none, none⟩] = [(none, [])] ∧
    (¬ ∃ e ∈ Pandas.create_and_populate_country_tables ⟨2023, 2, 15⟩
        [⟨some "A", some "1", some ⟨2020,1,1⟩, some ⟨2023,1,1⟩,
          none, none, none, none, none⟩],
      Pandas.add_derived ⟨2023, 2, 15⟩
        ⟨some "A", some "1", some ⟨2020,1,1⟩, some ⟨2023,1,1⟩,
          none, none, none, none, none⟩ ∈ e.2) ∧
    Pyspark.country_partitions
        [⟨⟨some "A", some "1", some ⟨2020,1,1⟩, none, none, none, none, none, none⟩,
          none, none, "Unknown"⟩] = [(none, [])] ∧
    (¬ ∃ e ∈ Pyspark.country_partitions
        [⟨⟨some "A", some "1", some ⟨2020,1,1⟩, none, none, none, none, none, none⟩,
          none, none, "Unknown"⟩],
      (⟨⟨some "A", some "1", some ⟨2020,1,1⟩, none, none, none, none, none, none⟩,
        none, none, "Unknown"⟩ : DerivedRow) ∈ e.2) := by
  decide

/-- C9 (amended): a failing partition write raises out of the write loop in
both implementations: the countries before the failure are written, the
failing country is reported, and no remaining country is attempted. -/
theorem C9_write_failure_aborts_amended (ok : Option String → Bool)
    (pre post : List (Option String × List DerivedRow)) (c : Option String)
    (rows : List DerivedRow)
    (hpre : ∀ e ∈ pre, ok e.1 = true) (hc : ok c = false) :
    Pandas.write_tables ok (pre ++ (c, rows) :: post) = (pre.map Prod.fst, some c) ∧
    Pyspark.save_country_writes ok (pre ++ (c, rows) :: post) =
      (pre.map Prod.fst, some c) := by
  induction pre with
  | nil =>
    constructor
    · rw [List.nil_append, Pandas.write_tables, if_neg (by simp [hc])]
      rfl
    · rw [List.nil_append, Pyspark.save_country_writes, if_neg (by simp [hc])]
      rfl
  | cons e pre ih =>
    rcases e with ⟨e1, e2⟩
    have he : ok e1 = true := hpre ⟨e1, e2⟩ (List.mem_cons_self _ _)
    have htail : ∀ e ∈ pre, ok e.1 = true := fun e h => hpre e (List.mem_cons_of_mem _ h)
    rcases ih htail with ⟨h1, h2⟩
    constructor
    · rw [List.cons_append, Pandas.write_tables, if_pos he]
      simp [h1]
    · rw [List.cons_append, Pyspark.save_country_writes, if_pos he]
      simp [h2]

/-- Witness for C9's amended theorem at a concrete oracle that accepts the
first country and rejects the second: the third country is never attempted. -/
theorem C9_write_failure_aborts_amended_witness :
    Pandas.write_tables (fun k => k == some "CC")
        ([(some "CC", [])] ++ (some "AA", []) :: [(some "BB", [])]) =
      ([(some "CC", ([] : List DerivedRow))].map Prod.fst, some (some "AA")) ∧
    Pyspark.save_country_writes (fun k => k == some "CC")
        ([(some "CC", [])] ++ (some "AA", []) :: [(some "BB", [])]) =
      ([(some "CC", ([] : List DerivedRow))].map Prod.fst, some (some "AA")) :=
  C9_write_failure_aborts_amended (fun k => k == some "CC")
    [(some "CC", [])] [(some "BB", [])] (some "AA") [] (by decide) (by decide)

/-- Counterexample for C9 as stated: when the write of the first country
fails, the second country is not attempted — its key appears in neither
implementation's written list, and the failure is reported instead. -/
theorem C9_counterexample :
    Pandas.write_tables (fun k => k == some "BB")
        [(some "AA", []), (some "BB", [])] = ([], some (some "AA")) ∧
    some "BB" ∉ (Pandas.write_tables (fun k => k == some "BB")
        [(some "AA", []), (some "BB", [])]).1 ∧
    Pyspark.save_country_writes (fun k => k == some "BB")
        [(some "AA", []), (some "BB", [])] = ([], some (some "AA")) := by
  decide

/-- C10: the set of pandas output artifacts is the set of country values of
the pre-deduplication staging set: one artifact per distinct staging country,
and a country none of whose rows survives deduplication still gets its
artifact, with zero data rows. -/
theorem C10_artifacts_from_staging_countries (today : Date) (staging : List Row)
    (c : Option String) :
    ((Pandas.create_and_populate_country_tables today staging).map Prod.fst =
      Pandas.unique_countries staging) ∧
    (c ∈ Pandas.unique_countries staging ↔ c ∈ staging.map (·.Country)) ∧
    (c ∈ Pandas.unique_countries staging →
      (∀ r ∈ Pandas.global_latest_records staging, countryMatch c r.Country = false) →
      (c, ([] : List DerivedRow)) ∈
        Pandas.create_and_populate_country_tables today staging) := by
  refine ⟨?_, ?_, ?_⟩
  · simp only [Pandas.create_and_populate_country_tables, List.map_map]
    exact List.map_id'' (fun _ => rfl) _
  · rw [Pandas.unique_countries, mem_uniqueList]
    simp
  · intro hc hnomatch
    simp only [Pandas.create_and_populate_country_tables]
    refine List.mem_map.2 ⟨c, hc, ?_⟩
    have hfil : (Pandas.global_latest_records staging).filter
        (fun r' => countryMatch c r'.Country) = [] :=
      List.filter_eq_nil_iff.2 (fun a ha => by simp [hnomatch a ha])
    rw [hfil]
    rfl

/-- Witness for C10 at a staging set where customer `"1"`'s latest row moved
from country `"AA"` to `"BB"`: the `"AA"` artifact is still produced, empty. -/
theorem C10_artifacts_from_staging_countries_witness :
    ((Pandas.create_and_populate_country_tables ⟨2023, 2, 15⟩
        [⟨some "A", some "1", some ⟨2020,1,1⟩, some ⟨2023,1,1⟩,
          none, none, none, none, some "AA"⟩,
         ⟨some "A", some "1", some ⟨2020,1,1⟩, some ⟨2023,6,1⟩,
          none, none, none, none, some "BB"⟩]).map Prod.fst =
      Pandas.unique_countries
        [⟨some "A", some "1", some ⟨2020,1,1⟩, some ⟨2023,1,1⟩,
          none, none, none, none, some "AA"⟩,
         ⟨some "A", some "1", some ⟨2020,1,1⟩, some ⟨2023,6,1⟩,
          none, none, none, none, some "BB"⟩]) ∧
    (some "AA" ∈ Pandas.unique_countries
        [⟨some "A", some "1", some ⟨2020,1,1⟩, some ⟨2023,1,1⟩,
          none, none, none, none, some "AA"⟩,
         ⟨some "A", some "1", some ⟨2020,1,1⟩, some ⟨2023,6,1⟩,
          none, none, none, none, some "BB"⟩] ↔
      some "AA" ∈ ([⟨some "A", some "1", some ⟨2020,1,1⟩, some ⟨2023,1,1⟩,
          none, none, none, none, some "AA"⟩,
         ⟨some "A", some "1", some ⟨2020,1,1⟩, some ⟨2023,6,1⟩,
          none, none, none, none, some "BB"⟩] : List Row).map (·.Country)) ∧
    (some "AA" ∈ Pandas.unique_countries
        [⟨some "A", some "1", some ⟨2020,1,1⟩, some ⟨2023,1,1⟩,
          none, none, none, none, some "AA"⟩,
         ⟨some "A", some "1", some ⟨2020,1,1⟩, some ⟨2023,6,1⟩,
          none, none, none, none, some "BB"⟩] →
      (∀ r ∈ Pandas.global_latest_records
        [⟨some "A", some "1", some ⟨2020,1,1⟩, some ⟨2023,1,1⟩,
          none, none, none, none, some "AA"⟩,
         ⟨some "A", some "1", some ⟨2020,1,1⟩, some ⟨2023,6,1⟩,
          none, none, none, none, some "BB"⟩],
        countryMatch (some "AA") r.Country = false) →
      (some "AA", ([] : List DerivedRow)) ∈
        Pandas.create_and_populate_country_tables ⟨2023, 2, 15⟩
        [⟨some "A", some "1", some ⟨2020,1,1⟩, some ⟨2023,1,1⟩,
          none, none, none, none, some "AA"⟩,
         ⟨some "A", some "1", some ⟨2020,1,1⟩, some ⟨2023,6,1⟩,
          none, none, none, none, some "BB"⟩]) :=
  C10_artifacts_from_staging_countries ⟨2023, 2, 15⟩
    [⟨some "A", some "1", some ⟨2020,1,1⟩, some ⟨2023,1,1⟩,
      none, none, none, none, some "AA"⟩,
     ⟨some "A", some "1", some ⟨2020,1,1⟩, some ⟨2023,6,1⟩,
      none, none, none, none, some "BB"⟩] (some "AA")
